import Mathlib

/-!
# Verification of the Aurora DSQL Prisma migration transformation engine

This file gives a shallow embedding of the repository's migration
transformation engine (the statement splitter, statement classifier,
rewrite rule engine and output composer) together with the CLI boundary
layer, and proves the specified properties about them.

The engine implementation file (`helpers/cli/transform.ts`) is not part of
the provided sources — only its test suite and its CLI callers are — so the
engine is modelled from the specification text, as indicated by the doc
comments below.  The CLI boundary layer (`helpers/cli/index.ts`) is
embedded from the actual source.

All text is modelled as `List Char` so that every definition is executable
and every concrete instance is decidable.
-/

set_option maxRecDepth 1000000

/-- SQL text, modelled as a list of characters. -/
abbrev Str := List Char

/-- Coerce a Lean string literal to the character-list representation. -/
def str (s : String) : Str := s.data

/-- Whitespace characters recognised by the engine. -/
def isWSChar (c : Char) : Bool :=
  c = ' ' || c = '\n' || c = '\t' || c = '\r'

/-- Drop leading whitespace. -/
def trimL (s : Str) : Str := s.dropWhile isWSChar

/-- Drop trailing whitespace. -/
def trimR (s : Str) : Str := (s.reverse.dropWhile isWSChar).reverse

/-- Drop leading and trailing whitespace. -/
def trimStr (s : Str) : Str := trimL (trimR s)

/-- Uppercase every character (used for case-insensitive keyword matching). -/
def upperStr (s : Str) : Str := s.map Char.toUpper

/-- `containsSub pat s` holds when `pat` occurs as a contiguous substring of `s`. -/
def containsSub (pat s : Str) : Bool :=
  s.tails.any (fun t => pat.isPrefixOf t)

/-- Number of (possibly overlapping) occurrences of `pat` in `s`. -/
def countSub (pat s : Str) : Nat :=
  (s.tails.filter (fun t => pat.isPrefixOf t)).length

/-- Modelled from the spec: quoting mode of the statement splitter's scanner
(§4.1 / §9): normal text, single-quoted string, double-quoted identifier,
dollar-quoted block (tag being read, inside the block, or matching the
closing tag). -/
inductive QMode where
  | normal
  | inSingle
  | inDouble
  | dollarTag (acc : Str)
  | inDollar (tag : Str)
  | dollarEnd (tag : Str) (rem : Str)
deriving DecidableEq, Repr

/-- Modelled from the spec: a raw statement produced by the splitter — the
leading comment lines and the statement body (trimmed, without the trailing
semicolon), cf. `StatementUnit` in §3 before wrap-marker detection. -/
structure RawStmt where
  comments : List Str
  body : Str
deriving DecidableEq, Repr

/-- Modelled from the spec: the splitter's scanner state (§4.1): quoting
mode, parenthesis depth, current statement buffer, pending leading-comment
lines, a leading-comment line currently being read, whether the scanner is
inside a comment that is part of a statement body, and whether a single
`-` has been seen (possible start of `--`). -/
structure SplitCore where
  mode : QMode
  depth : Nat
  buf : Str
  pending : List Str
  cur : Option Str
  inBody : Bool
  dash : Bool
deriving DecidableEq, Repr

/-- Initial scanner state. -/
def initCore : SplitCore :=
  ⟨QMode.normal, 0, [], [], none, false, false⟩

/-- Modelled from the spec: one scanner step in `normal` mode (§4.1): a
semicolon at parenthesis depth 0 ends the current statement; quotes,
dollar signs and parentheses update the quoting state; a blank line while
no statement has started clears the pending comment block. -/
def stepNormal (s : SplitCore) (c : Char) : SplitCore × List RawStmt :=
  if c = '-' then ({ s with dash := true }, [])
  else if c = ';' ∧ s.depth = 0 then
    if trimStr s.buf = [] then ({ s with buf := [], pending := [] }, [])
    else ({ s with buf := [], pending := [] }, [⟨s.pending, trimStr s.buf⟩])
  else if c = '\'' then ({ s with mode := QMode.inSingle, buf := s.buf ++ [c] }, [])
  else if c = '"' then ({ s with mode := QMode.inDouble, buf := s.buf ++ [c] }, [])
  else if c = '$' then ({ s with mode := QMode.dollarTag [], buf := s.buf ++ [c] }, [])
  else if c = '(' then ({ s with depth := s.depth + 1, buf := s.buf ++ [c] }, [])
  else if c = ')' then ({ s with depth := s.depth - 1, buf := s.buf ++ [c] }, [])
  else if c = '\n' ∧ trimStr s.buf = [] then ({ s with pending := [], buf := [] }, [])
  else ({ s with buf := s.buf ++ [c] }, [])

/-- Modelled from the spec: one scanner step dispatching on the quoting
mode (§4.1): no statement split happens inside single/double quotes or
dollar-quoted blocks; an invalid dollar-quote tag character aborts the tag
and re-processes the character in normal mode. -/
def stepMain (s : SplitCore) (c : Char) : SplitCore × List RawStmt :=
  match s.mode with
  | QMode.normal => stepNormal s c
  | QMode.inSingle =>
    if c = '\'' then ({ s with mode := QMode.normal, buf := s.buf ++ [c] }, [])
    else ({ s with buf := s.buf ++ [c] }, [])
  | QMode.inDouble =>
    if c = '"' then ({ s with mode := QMode.normal, buf := s.buf ++ [c] }, [])
    else ({ s with buf := s.buf ++ [c] }, [])
  | QMode.dollarTag acc =>
    if c = '$' then ({ s with mode := QMode.inDollar acc, buf := s.buf ++ [c] }, [])
    else if c.isAlpha || c = '_' || c.isDigit then
      ({ s with mode := QMode.dollarTag (acc ++ [c]), buf := s.buf ++ [c] }, [])
    else
      stepNormal { s with mode := QMode.normal } c
  | QMode.inDollar tag =>
    if c = '$' then ({ s with mode := QMode.dollarEnd tag tag, buf := s.buf ++ [c] }, [])
    else ({ s with buf := s.buf ++ [c] }, [])
  | QMode.dollarEnd tag rem =>
    match rem with
    | [] =>
      if c = '$' then ({ s with mode := QMode.normal, buf := s.buf ++ [c] }, [])
      else ({ s with mode := QMode.inDollar tag, buf := s.buf ++ [c] }, [])
    | r :: rs =>
      if c = r then ({ s with mode := QMode.dollarEnd tag rs, buf := s.buf ++ [c] }, [])
      else if c = '$' then ({ s with mode := QMode.dollarEnd tag tag, buf := s.buf ++ [c] }, [])
      else ({ s with mode := QMode.inDollar tag, buf := s.buf ++ [c] }, [])

/-- Modelled from the spec: the full scanner step (§4.1): line comments
(`--` to end of line) are not split points; a comment line immediately
preceding a statement is collected as a leading comment, while a comment
after a statement has begun stays inside the statement body. -/
def step (s : SplitCore) (c : Char) : SplitCore × List RawStmt :=
  match s.cur with
  | some l =>
    if c = '\n' then ({ s with cur := none, pending := s.pending ++ [l] }, [])
    else ({ s with cur := some (l ++ [c]) }, [])
  | none =>
    if s.inBody then
      ({ s with buf := s.buf ++ [c], inBody := c ≠ '\n' }, [])
    else if s.dash then
      if c = '-' then
        if trimStr s.buf = [] then ({ s with dash := false, cur := some (str "--") }, [])
        else ({ s with dash := false, inBody := true, buf := s.buf ++ str "--" }, [])
      else
        stepNormal { s with dash := false, buf := s.buf ++ ['-'] } c
    else
      stepMain s c

/-- Run the scanner over a character list, collecting emitted statements. -/
def scanList (s : SplitCore) : Str → SplitCore × List RawStmt
  | [] => (s, [])
  | c :: cs =>
    let p := step s c
    let q := scanList p.1 cs
    (q.1, p.2 ++ q.2)

/-- Modelled from the spec: end-of-input handling (§4.1, §7): a final
statement lacking a trailing semicolon (possibly with an unterminated
quote or parenthesis) is still captured as one final statement. -/
def finishScan (p : SplitCore × List RawStmt) : List RawStmt :=
  let s := p.1
  let buf := if s.dash then s.buf ++ ['-'] else s.buf
  if trimStr buf = [] then p.2 else p.2 ++ [⟨s.pending, trimStr buf⟩]

/-- Modelled from the spec: the Statement Splitter (§4.1): segment raw SQL
text into an ordered sequence of raw statements with their leading
comments. -/
def splitRaw (input : Str) : List RawStmt :=
  finishScan (scanList initCore input)

/-- Modelled from the spec: a statement unit (§3): leading comments, body,
and whether the original text already enclosed it in `BEGIN;`/`COMMIT;`
markers. -/
structure StatementUnit where
  comments : List Str
  body : Str
  alreadyWrapped : Bool
deriving DecidableEq, Repr

/-- Is this raw statement exactly the transaction-begin marker? -/
def isBeginStmt (u : RawStmt) : Bool :=
  upperStr u.body = str "BEGIN"

/-- Is this raw statement exactly the transaction-commit marker? -/
def isCommitStmt (u : RawStmt) : Bool :=
  upperStr u.body = str "COMMIT"

/-- Modelled from the spec: wrap-marker detection (§4.1), single pass with
an in-transaction flag: when a statement is exactly `BEGIN` and a later
top-level statement is exactly `COMMIT`, the units between them are marked
`alreadyWrapped` and the marker statements are stripped, so that
re-wrapping is idempotent. -/
def markWrappedGo : Bool → List RawStmt → List StatementUnit
  | _, [] => []
  | false, u :: rest =>
    if isBeginStmt u ∧ rest.any isCommitStmt then markWrappedGo true rest
    else ⟨u.comments, u.body, false⟩ :: markWrappedGo false rest
  | true, u :: rest =>
    if isCommitStmt u then markWrappedGo false rest
    else ⟨u.comments, u.body, true⟩ :: markWrappedGo true rest

/-- Wrap-marker detection over a whole raw statement list. -/
def markWrapped (l : List RawStmt) : List StatementUnit :=
  markWrappedGo false l

/-- Modelled from the spec: the splitter composed with wrap-marker
detection: raw text to ordered statement units. -/
def splitUnits (input : Str) : List StatementUnit :=
  markWrapped (splitRaw input)

/-- Characters that may appear in an unquoted identifier or keyword. -/
def isIdentChar (c : Char) : Bool :=
  c.isAlpha || c.isDigit || c = '_'

/-- Does a word boundary follow here (end of input or a non-identifier
character)? -/
def wordBoundary : Str → Bool
  | [] => true
  | c :: _ => ¬ isIdentChar c

/-- Modelled from the spec: case-insensitive keyword matching (§4.2): skip
leading whitespace, match `kw` case-insensitively at a word boundary, and
return the consumed original text together with the rest. -/
def matchKw (kw : Str) (s : Str) : Option (Str × Str) :=
  let w := s.takeWhile isWSChar
  let r := s.dropWhile isWSChar
  let tk := r.take kw.length
  let rest := r.drop kw.length
  if upperStr tk = upperStr kw ∧ wordBoundary rest = true then
    some (w ++ tk, rest)
  else
    none

/-- Match a sequence of keywords, accumulating the consumed original text. -/
def matchKws : List Str → Str → Option (Str × Str)
  | [], s => some ([], s)
  | kw :: kws, s =>
    match matchKw kw s with
    | none => none
    | some (con, rest) =>
      match matchKws kws rest with
      | none => none
      | some (con', rest') => some (con ++ con', rest')

/-- Modelled from the spec: read one identifier token (§4.2), either a
double-quoted identifier (read through the closing quote) or a bare word;
returns (consumed original text, token text, rest). -/
def readToken (s : Str) : Option (Str × Str × Str) :=
  let w := s.takeWhile isWSChar
  let r := s.dropWhile isWSChar
  match r with
  | [] => none
  | c :: cs =>
    if c = '"' then
      let inner := cs.takeWhile (fun d => d ≠ '"')
      let rest := (cs.dropWhile (fun d => d ≠ '"')).drop 1
      some (w ++ ['"'] ++ inner ++ ['"'], ['"'] ++ inner ++ ['"'], rest)
    else if isIdentChar c then
      let tok := r.takeWhile isIdentChar
      some (w ++ tok, tok, r.dropWhile isIdentChar)
    else
      none

/-- State of the clause scanner: quoting mode, parenthesis depth, current
clause text, finished clauses. -/
structure ClauseCore where
  mode : QMode
  depth : Nat
  cur : Str
  out : List Str
deriving DecidableEq, Repr

/-- Modelled from the spec: one step of the top-level-comma clause scanner
for compound `ALTER TABLE` statements (§3): a comma at depth 0 outside any
quoting separates clauses; clause parsing never crosses parenthesis
boundaries. -/
def clauseStep (s : ClauseCore) (c : Char) : ClauseCore :=
  match s.mode with
  | QMode.normal =>
    if c = ',' ∧ s.depth = 0 then { s with cur := [], out := s.out ++ [trimStr s.cur] }
    else if c = '\'' then { s with mode := QMode.inSingle, cur := s.cur ++ [c] }
    else if c = '"' then { s with mode := QMode.inDouble, cur := s.cur ++ [c] }
    else if c = '(' then { s with depth := s.depth + 1, cur := s.cur ++ [c] }
    else if c = ')' then { s with depth := s.depth - 1, cur := s.cur ++ [c] }
    else { s with cur := s.cur ++ [c] }
  | QMode.inSingle =>
    if c = '\'' then { s with mode := QMode.normal, cur := s.cur ++ [c] }
    else { s with cur := s.cur ++ [c] }
  | _ =>
    if c = '"' then { s with mode := QMode.normal, cur := s.cur ++ [c] }
    else { s with cur := s.cur ++ [c] }

/-- Split the clause part of an `ALTER TABLE` statement at top-level
commas. -/
def splitClauses (s : Str) : List Str :=
  let fin := s.foldl clauseStep ⟨QMode.normal, 0, [], []⟩
  if trimStr fin.cur = [] then fin.out else fin.out ++ [trimStr fin.cur]

/-- Modelled from the spec: the tagged-variant representation of an
`ALTER TABLE` clause (§3, §9): drop-constraint, foreign-key-adding
add-constraint, other add-constraint (each with the constraint name), an
added column, or anything else; every variant keeps the original clause
text. -/
inductive Clause where
  | dropC (name : Str) (text : Str)
  | addCFk (name : Str) (text : Str)
  | addCOther (name : Str) (text : Str)
  | addCol (text : Str)
  | otherC (text : Str)
deriving DecidableEq, Repr

/-- The original text of a clause. -/
def Clause.text : Clause → Str
  | .dropC _ t => t
  | .addCFk _ t => t
  | .addCOther _ t => t
  | .addCol t => t
  | .otherC t => t

/-- Modelled from the spec: clause classification by structural pattern
matching (§3, §4.2): leading `DROP CONSTRAINT`, `ADD CONSTRAINT` (with the
constraint name, foreign-key-adding when `FOREIGN KEY` follows the name),
`ADD COLUMN`, otherwise other.  Identifier content is never inspected for
keyword substrings. -/
def classifyClause (t : Str) : Clause :=
  match matchKws [str "DROP", str "CONSTRAINT"] t with
  | some (_, r) =>
    match readToken r with
    | some (_, name, _) => Clause.dropC name t
    | none => Clause.dropC [] t
  | none =>
    match matchKws [str "ADD", str "CONSTRAINT"] t with
    | some (_, r) =>
      match readToken r with
      | some (_, name, r2) =>
        if (matchKws [str "FOREIGN", str "KEY"] r2).isSome then Clause.addCFk name t
        else Clause.addCOther name t
      | none => Clause.addCOther [] t
    | none =>
      if (matchKws [str "ADD", str "COLUMN"] t).isSome then Clause.addCol t
      else Clause.otherC t

/-- Modelled from the spec: statement kinds assigned by the classifier
(§2, §3): `create-table`, `create-index`/`create-unique-index` (carrying
an `alreadyAsync` flag plus the matched original text and the remainder),
`alter-table` (carrying the original `ALTER TABLE <table>` text and the
classified clause list), `drop-statement`, and `other`. -/
inductive Kind where
  | createTable
  | createIndex (uniq : Bool) (alreadyAsync : Bool) (con : Str) (rest : Str)
  | alterTable (pre : Str) (clauses : List Clause)
  | dropStmt
  | otherK
deriving DecidableEq, Repr

/-- Modelled from the spec: the Statement Classifier (§4.2): pattern-match
the unit body, case-insensitively on keywords and quote-aware on
identifiers, against the statement-kind signatures; classification is by
statement shape, never by keyword substring containment in identifiers. -/
def classify (body : Str) : Kind :=
  match matchKws [str "CREATE", str "TABLE"] body with
  | some _ => Kind.createTable
  | none =>
  match matchKws [str "CREATE", str "UNIQUE", str "INDEX"] body with
  | some (con, rest) =>
    Kind.createIndex true ((matchKw (str "ASYNC") rest).isSome) con rest
  | none =>
  match matchKws [str "CREATE", str "INDEX"] body with
  | some (con, rest) =>
    Kind.createIndex false ((matchKw (str "ASYNC") rest).isSome) con rest
  | none =>
  match matchKws [str "ALTER", str "TABLE"] body with
  | some (con, rest) =>
    match readToken rest with
    | some (tw, _, rest2) =>
      Kind.alterTable (trimStr (con ++ tw)) ((splitClauses rest2).map classifyClause)
    | none => Kind.otherK
  | none =>
  match matchKws [str "DROP", str "TABLE"] body with
  | some _ => Kind.dropStmt
  | none =>
  match matchKws [str "DROP", str "INDEX"] body with
  | some _ => Kind.dropStmt
  | none => Kind.otherK


/-- Modelled from the spec: the engine's options (§3): `includeHeader`
(default true) and `force` (default false). -/
structure TransformOptions where
  includeHeader : Bool := true
  force : Bool := false
deriving DecidableEq, Repr

/-- Modelled from the spec: the engine counters (§3). -/
structure TransformStats where
  statementsProcessed : Nat
  indexesConverted : Nat
  foreignKeysRemoved : Nat
deriving DecidableEq, Repr

/-- Modelled from the spec: the engine's sole output (§3): final composed
text, counters, warnings and unsupported-statement descriptions. -/
structure TransformResult where
  sql : Str
  stats : TransformStats
  warnings : List Str
  unsupportedStatements : List Str
deriving DecidableEq, Repr

/-- Result of applying the rewrite rules to one statement unit: the emitted
unit (leading comments and rewritten body), if any, the counter deltas, and
the unsupported-statement descriptions recorded for this statement. -/
structure StepRes where
  emitted : Option (List Str × Str)
  fkDelta : Nat
  idxDelta : Nat
  unsupported : List Str
deriving DecidableEq, Repr

/-- The names of all drop-constraint clauses of a compound statement. -/
def dropNames (cs : List Clause) : List Str :=
  cs.filterMap (fun c => match c with
    | Clause.dropC n _ => some n
    | _ => none)

/-- Modelled from the spec: the compound `ALTER TABLE` filtering policy
(§4.3): a drop-constraint clause and any add-constraint clause paired with
it (same constraint name) are excluded; unpaired add-constraint clauses and
all other clause kinds are kept.  The policy does not depend on `force`. -/
def keepClause (names : List Str) (c : Clause) : Bool :=
  match c with
  | Clause.dropC _ _ => false
  | Clause.addCFk n _ => ¬ names.contains n
  | Clause.addCOther n _ => ¬ names.contains n
  | Clause.addCol _ => true
  | Clause.otherC _ => true

/-- Modelled from the spec: the unsupported-statement description recorded
for a drop-constraint clause (§4.3, §6): the `ALTER TABLE <table>` text
followed by the literal clause text. -/
def unsupportedEntries (pre : Str) (cs : List Clause) : List Str :=
  cs.filterMap (fun c => match c with
    | Clause.dropC _ t => some (pre ++ [' '] ++ trimStr t)
    | _ => none)

/-- Join kept clause texts back into a single `ALTER TABLE` body, commas in
original order (§4.3 step 4). -/
def rejoinClauses (pre : Str) (kept : List Clause) : Str :=
  pre ++ [' '] ++ (str ", ").intercalate (kept.map (fun c => trimStr c.text))

/-- Modelled from the spec: the Transformation Rule Engine's per-kind
rewrite contract (§4.3): create-table / drop-statement / other pass
through; create-index gets `ASYNC` inserted after `INDEX` unless already
async; a single foreign-key-adding or drop-constraint `ALTER TABLE` is
dropped entirely and counted in `foreignKeysRemoved`; a compound
`ALTER TABLE` goes through clause pairing and filtering, every
drop-constraint clause being recorded as unsupported, the whole statement
being dropped when no clause survives. -/
def applyRules (u : StatementUnit) : StepRes :=
  match classify u.body with
  | Kind.createIndex _ already con rest =>
    if already then ⟨some (u.comments, u.body), 0, 0, []⟩
    else ⟨some (u.comments, con ++ str " ASYNC" ++ rest), 0, 1, []⟩
  | Kind.alterTable pre cs =>
    match cs with
    | [Clause.dropC _ _] => ⟨none, 1, 0, []⟩
    | [Clause.addCFk _ _] => ⟨none, 1, 0, []⟩
    | [_] => ⟨some (u.comments, u.body), 0, 0, []⟩
    | _ =>
      let names := dropNames cs
      let kept := cs.filter (keepClause names)
      if kept = [] then ⟨none, 0, 0, unsupportedEntries pre cs⟩
      else ⟨some (u.comments, rejoinClauses pre kept), 0, 0, unsupportedEntries pre cs⟩
  | _ => ⟨some (u.comments, u.body), 0, 0, []⟩

/-- Modelled from the spec: transaction wrapping (§4.3): each surviving
statement is emitted as its leading comments, `BEGIN;`, the body with a
trailing semicolon ensured, and `COMMIT;`. -/
def wrapOne (e : List Str × Str) : Str :=
  (e.1.foldr (fun l acc => l ++ ['\n'] ++ acc) []) ++
    str "BEGIN;\n" ++ e.2 ++ str ";\nCOMMIT;"

/-- Modelled from the spec: the fixed generated header comment block
(§4.5, §6), literal text including the phrase `Transformed for Aurora
DSQL` and a generation timestamp placeholder. -/
def headerText : Str :=
  str "-- Transformed for Aurora DSQL\n-- Generated at: <timestamp>\n\n"

/-- Join a list of texts with a separator between consecutive entries. -/
def joinSep (sep : Str) : List Str → Str
  | [] => []
  | [x] => x
  | x :: y :: xs => x ++ sep ++ joinSep sep (y :: xs)

/-- Modelled from the spec: the Output Composer (§4.5): concatenate the
wrapped statements separated by one blank line, prefixed by the header when
enabled, ending with at most one trailing newline; empty statement list
composes to empty output. -/
def compose (includeHeader : Bool) (es : List (List Str × Str)) : Str :=
  if es = [] then []
  else (if includeHeader then headerText else []) ++
    joinSep (str "\n\n") (es.map wrapOne) ++ ['\n']

/-- Modelled from the spec: the warning emitted when foreign keys are
removed (§4.3, §6): one deduplicated entry for the whole run, mentioning
`relationMode` and `application-layer`. -/
def fkWarning : Str :=
  str "Foreign key constraints removed: set relationMode = \"prisma\" in your Prisma schema and enforce application-layer referential integrity"

/-- Modelled from the spec: run the rule engine over the statement units
(§4.3, §4.4): apply the per-statement rules in order, sum the counter
deltas, count emitted statements, collect unsupported-statement
descriptions in order, and emit the single deduplicated foreign-key
warning when at least one removal occurred. -/
def runUnits (includeHeader : Bool) (us : List StatementUnit) : TransformResult :=
  { sql := compose includeHeader ((us.map applyRules).filterMap (fun r => r.emitted))
    stats := ⟨((us.map applyRules).filterMap (fun r => r.emitted)).length,
              ((us.map applyRules).map (fun r => r.idxDelta)).sum,
              ((us.map applyRules).map (fun r => r.fkDelta)).sum⟩
    warnings :=
      if ((us.map applyRules).map (fun r => r.fkDelta)).sum > 0 then [fkWarning] else []
    unsupportedStatements := ((us.map applyRules).map (fun r => r.unsupported)).flatten }

/-- Modelled from the spec: the Migration Transformation Engine
(`transformMigration` in `helpers/cli/transform.ts`, absent from the
sources and reconstructed from §2–§6): split the raw text into statement
units, detect and strip existing transaction markers, apply the rewrite
rules in order, and compose the final result.  A pure function of
`(rawText, options)`; the `force` option does not influence the engine
(§4.3: it only governs the boundary-layer abort decision). -/
def transformMigration (input : Str) (o : TransformOptions := {}) : TransformResult :=
  runUnits o.includeHeader (splitUnits input)

/-! ## The CLI boundary layer, embedded from `helpers/cli/index.ts` -/

/-- Outcome of a CLI command run: the process exit code, the error lines
printed to stderr, whether the transformer engine was invoked, and whether
the output file was written. -/
structure CliOutcome where
  exitCode : Nat
  errorLines : List Str
  invokedTransformer : Bool
  wroteFile : Bool
deriving DecidableEq, Repr

/-- Embedded from `helpers/cli/index.ts`, `handleTransform` (lines
334-357): the `transform` command runs the engine, and if the result has
unsupported statements and `--force` was not given it prints every
unsupported entry (indented by two spaces) and exits with status 1 without
writing output; otherwise it writes the transformed SQL and succeeds. -/
def handleTransformRun (sql : Str) (includeHeader force : Bool) : CliOutcome :=
  let result := transformMigration sql ⟨includeHeader, force⟩
  if result.unsupportedStatements ≠ [] ∧ force = false then
    ⟨1, result.unsupportedStatements.map (fun s => str "  " ++ s), true, false⟩
  else
    ⟨0, [], true, true⟩

/-- Embedded from `helpers/cli/index.ts`, `handleMigrate` (lines 215-262):
after generating the diff SQL, the `migrate` command exits successfully
before invoking the transformer and without writing the output file when
the diff trims to empty or is exactly `-- This is an empty migration.`;
otherwise it transforms, aborts with status 1 (printing every unsupported
entry) when unsupported statements exist and `--force` was not given, and
otherwise writes the output file. -/
def handleMigrateRun (rawSql : Str) (includeHeader force : Bool) : CliOutcome :=
  if trimStr rawSql = [] ∨ trimStr rawSql = str "-- This is an empty migration." then
    ⟨0, [], false, false⟩
  else
    let result := transformMigration rawSql ⟨includeHeader, force⟩
    if result.unsupportedStatements ≠ [] ∧ force = false then
      ⟨1, result.unsupportedStatements.map (fun s => str "  " ++ s), true, false⟩
    else
      ⟨0, [], true, true⟩

/-! ## Predicates used to state the claims -/

/-- A statement unit classified as a single-clause foreign-key-adding
`ALTER TABLE` (`ADD CONSTRAINT ... FOREIGN KEY ... REFERENCES ...`). -/
def isFkAddStmt (u : StatementUnit) : Bool :=
  match classify u.body with
  | Kind.alterTable _ [Clause.addCFk _ _] => true
  | _ => false

/-- A statement unit dropped entirely by the foreign-key-removal rule: a
single-clause `ALTER TABLE` that either adds a foreign-key constraint or
drops a constraint. -/
def isFkRemovalStmt (u : StatementUnit) : Bool :=
  match classify u.body with
  | Kind.alterTable _ [Clause.dropC _ _] => true
  | Kind.alterTable _ [Clause.addCFk _ _] => true
  | _ => false

/-- A statement unit dropped entirely by the empty-compound-clause rule: an
`ALTER TABLE` whose clause list is not a single clause and in which no
clause survives the pairing filter. -/
def isEmptyCompoundStmt (u : StatementUnit) : Bool :=
  match classify u.body with
  | Kind.alterTable _ cs =>
    decide (cs.length ≠ 1) && (cs.filter (keepClause (dropNames cs))).isEmpty
  | _ => false

/-- Does the rule engine emit an output statement for this unit? -/
def keptUnit (u : StatementUnit) : Bool :=
  (applyRules u).emitted.isSome

/-- The ordered list of emitted (comments, body) pairs for a unit list. -/
def emittedOf (us : List StatementUnit) : List (List Str × Str) :=
  (us.map applyRules).filterMap (fun r => r.emitted)

/-- A well-formed leading comment line, exactly as the splitter produces
them: it starts with `--` and contains no newline. -/
def commentLineOK (l : Str) : Bool :=
  decide (l.take 2 = str "--" ∧ '\n' ∉ l)

/-- A statement unit whose transformed form is splitter-stable: its leading
comment block consists of well-formed comment lines, the rule engine either
drops it or emits a trimmed non-marker body that the splitter scans back
cleanly as one unchanged statement, and re-applying the rule engine to the
emitted body passes it through unchanged with no counter increments.  All
normal Prisma-generated statements (create-table, create-index with or
without `ASYNC`, drop-statement, plain `ALTER TABLE`, with or without
leading `-- ...` comments) satisfy this decidable predicate. -/
def stableUnit (u : StatementUnit) : Bool :=
  match (applyRules u).emitted with
  | none => true
  | some e =>
    decide (e.1.all commentLineOK = true ∧ e.2 ≠ [] ∧ trimStr e.2 = e.2 ∧
      scanList initCore e.2 = (⟨QMode.normal, 0, e.2, [], none, false, false⟩, []) ∧
      upperStr e.2 ≠ str "BEGIN" ∧ upperStr e.2 ≠ str "COMMIT" ∧
      applyRules ⟨[], e.2, true⟩ = ⟨some ([], e.2), 0, 0, []⟩)

/-- The three raw statements the splitter recovers from one wrapped block
of composed output: the `BEGIN` marker — carrying the block's leading
comment lines, which re-attach to it during re-splitting — the body, and
the `COMMIT` marker. -/
def blockOf (e : List Str × Str) : List RawStmt :=
  [⟨e.1, str "BEGIN"⟩, ⟨[], e.2⟩, ⟨[], str "COMMIT"⟩]

/-! ## Claim theorems -/

/-- C1: For the compound statement
`ALTER TABLE "vet" DROP CONSTRAINT "vet_pkey", ADD COLUMN "phone"
VARCHAR(20), ADD CONSTRAINT "vet_pkey" PRIMARY KEY ("id");` transformed
with `force = false`, the result contains exactly one
`unsupportedStatements` entry mentioning `DROP CONSTRAINT`, and the output
SQL contains `ADD COLUMN` and `phone` but neither `ADD CONSTRAINT` nor
`PRIMARY KEY`; for the same statement with the `ADD COLUMN` clause removed
(only the paired drop/add-constraint clauses), with either `force` value,
the output SQL is empty after trimming and `statementsProcessed = 0`. -/
theorem C1_compound_alter_filtering :
    ((transformMigration (str "ALTER TABLE \"vet\" DROP CONSTRAINT \"vet_pkey\",\nADD COLUMN     \"phone\" VARCHAR(20),\nADD CONSTRAINT \"vet_pkey\" PRIMARY KEY (\"id\");") ⟨false, false⟩).unsupportedStatements.length = 1 ∧
     containsSub (str "DROP CONSTRAINT")
       (transformMigration (str "ALTER TABLE \"vet\" DROP CONSTRAINT \"vet_pkey\",\nADD COLUMN     \"phone\" VARCHAR(20),\nADD CONSTRAINT \"vet_pkey\" PRIMARY KEY (\"id\");") ⟨false, false⟩).unsupportedStatements.headI = true ∧
     containsSub (str "ADD COLUMN")
       (transformMigration (str "ALTER TABLE \"vet\" DROP CONSTRAINT \"vet_pkey\",\nADD COLUMN     \"phone\" VARCHAR(20),\nADD CONSTRAINT \"vet_pkey\" PRIMARY KEY (\"id\");") ⟨false, false⟩).sql = true ∧
     containsSub (str "phone")
       (transformMigration (str "ALTER TABLE \"vet\" DROP CONSTRAINT \"vet_pkey\",\nADD COLUMN     \"phone\" VARCHAR(20),\nADD CONSTRAINT \"vet_pkey\" PRIMARY KEY (\"id\");") ⟨false, false⟩).sql = true ∧
     containsSub (str "ADD CONSTRAINT")
       (transformMigration (str "ALTER TABLE \"vet\" DROP CONSTRAINT \"vet_pkey\",\nADD COLUMN     \"phone\" VARCHAR(20),\nADD CONSTRAINT \"vet_pkey\" PRIMARY KEY (\"id\");") ⟨false, false⟩).sql = false ∧
     containsSub (str "PRIMARY KEY")
       (transformMigration (str "ALTER TABLE \"vet\" DROP CONSTRAINT \"vet_pkey\",\nADD COLUMN     \"phone\" VARCHAR(20),\nADD CONSTRAINT \"vet_pkey\" PRIMARY KEY (\"id\");") ⟨false, false⟩).sql = false) ∧
    (trimStr (transformMigration (str "ALTER TABLE \"vet\" DROP CONSTRAINT \"vet_pkey\",\nADD CONSTRAINT \"vet_pkey\" PRIMARY KEY (\"id\");") ⟨false, false⟩).sql = [] ∧
     (transformMigration (str "ALTER TABLE \"vet\" DROP CONSTRAINT \"vet_pkey\",\nADD CONSTRAINT \"vet_pkey\" PRIMARY KEY (\"id\");") ⟨false, false⟩).stats.statementsProcessed = 0 ∧
     trimStr (transformMigration (str "ALTER TABLE \"vet\" DROP CONSTRAINT \"vet_pkey\",\nADD CONSTRAINT \"vet_pkey\" PRIMARY KEY (\"id\");") ⟨false, true⟩).sql = [] ∧
     (transformMigration (str "ALTER TABLE \"vet\" DROP CONSTRAINT \"vet_pkey\",\nADD CONSTRAINT \"vet_pkey\" PRIMARY KEY (\"id\");") ⟨false, true⟩).stats.statementsProcessed = 0) := by
  decide

/-- C6: the engine is a total function (it never throws: every anomaly
degrades to recorded data in the returned `TransformResult`), and in
particular for empty input — and for comment-only input — it returns, for
every option value, a result with empty SQL, zero statements processed,
all counters zero, no warnings and no unsupported statements. -/
theorem C6_total_empty_input :
    ∀ (o : TransformOptions),
      transformMigration (str "") o = ⟨[], ⟨0, 0, 0⟩, [], []⟩ ∧
      transformMigration (str "-- This is a comment\n-- Another comment") o =
        ⟨[], ⟨0, 0, 0⟩, [], []⟩ :=
  fun _ => ⟨rfl, rfl⟩

/-- C7: a statement whose table/column identifiers are literally named
`references` and `foreign_key` is preserved unchanged in the output,
counts toward `statementsProcessed`, and does not increment
`foreignKeysRemoved` or produce warnings or unsupported entries —
classification is by statement shape, not keyword substring containment in
identifiers. -/
theorem C7_reserved_names :
    containsSub (str "CREATE TABLE \"references\" (\"foreign_key\" VARCHAR(100));")
      (transformMigration (str "CREATE TABLE \"references\" (\"foreign_key\" VARCHAR(100));") ⟨false, false⟩).sql = true ∧
    (transformMigration (str "CREATE TABLE \"references\" (\"foreign_key\" VARCHAR(100));") ⟨false, false⟩).stats.statementsProcessed = 1 ∧
    (transformMigration (str "CREATE TABLE \"references\" (\"foreign_key\" VARCHAR(100));") ⟨false, false⟩).stats.foreignKeysRemoved = 0 ∧
    (transformMigration (str "CREATE TABLE \"references\" (\"foreign_key\" VARCHAR(100));") ⟨false, false⟩).warnings = [] ∧
    (transformMigration (str "CREATE TABLE \"references\" (\"foreign_key\" VARCHAR(100));") ⟨false, false⟩).unsupportedStatements = [] := by
  decide

/-- C4: the `force` option does not change the engine at all — the whole
`TransformResult` (clause filtering, statements kept, counters and the
`unsupportedStatements` list) is identical for `force = true` and
`force = false` on every input; `force` only governs the boundary-layer
abort decision: with `force = true` the CLI never aborts, and with
`force = false` it aborts exactly when unsupported statements exist. -/
theorem C4_force_independence :
    (∀ (input : Str) (h f f' : Bool),
      transformMigration input ⟨h, f⟩ = transformMigration input ⟨h, f'⟩) ∧
    (∀ (sql : Str) (h : Bool),
      (handleTransformRun sql h true).exitCode = 0 ∧
      ((handleTransformRun sql h false).exitCode = 1 ↔
        (transformMigration sql ⟨h, false⟩).unsupportedStatements ≠ [])) := by
  constructor
  · intro input h f f'
    rfl
  · intro sql h
    constructor
    · simp [handleTransformRun]
    · by_cases hne : (transformMigration sql ⟨h, false⟩).unsupportedStatements = [] <;>
        simp [handleTransformRun, hne]

/-- C10: in the `migrate` command, when the generated diff SQL trims to
empty or is exactly `-- This is an empty migration.`, the command exits
with success status before invoking the transformer and without writing or
creating the output file. -/
theorem C10_migrate_empty_diff :
    ∀ (rawSql : Str) (h f : Bool),
      (trimStr rawSql = [] ∨ trimStr rawSql = str "-- This is an empty migration.") →
      handleMigrateRun rawSql h f = ⟨0, [], false, false⟩ := by
  intro rawSql h f hempty
  unfold handleMigrateRun
  rw [if_pos hempty]

/-- Witness for C10 at two concrete inputs: whitespace-only diff SQL and
the literal empty-migration marker. -/
theorem C10_migrate_empty_diff_witness :
    ((trimStr (str "  \n") = [] ∨ trimStr (str "  \n") = str "-- This is an empty migration.") ∧
      handleMigrateRun (str "  \n") true false = ⟨0, [], false, false⟩) ∧
    ((trimStr (str "-- This is an empty migration.") = [] ∨
        trimStr (str "-- This is an empty migration.") = str "-- This is an empty migration.") ∧
      handleMigrateRun (str "-- This is an empty migration.") true false = ⟨0, [], false, false⟩) :=
  ⟨⟨Or.inl (by decide), C10_migrate_empty_diff (str "  \n") true false (Or.inl (by decide))⟩,
   ⟨Or.inr (by decide),
    C10_migrate_empty_diff (str "-- This is an empty migration.") true false (Or.inr (by decide))⟩⟩

/-- C8: when the engine's result has a non-empty `unsupportedStatements`
list and `force` is false, both the `transform` and the `migrate` CLI
commands treat the run as failed: they print every unsupported entry and
exit with status 1, without writing the output file — while the engine has
already returned its complete `TransformResult` (the engine is a total
function and never throws). -/
theorem C8_cli_abort :
    (∀ (sql : Str) (h : Bool),
      (transformMigration sql ⟨h, false⟩).unsupportedStatements ≠ [] →
      (handleTransformRun sql h false).exitCode = 1 ∧
      (handleTransformRun sql h false).wroteFile = false ∧
      (handleTransformRun sql h false).invokedTransformer = true ∧
      ∀ e ∈ (transformMigration sql ⟨h, false⟩).unsupportedStatements,
        str "  " ++ e ∈ (handleTransformRun sql h false).errorLines) ∧
    (∀ (sql : Str) (h : Bool),
      (transformMigration sql ⟨h, false⟩).unsupportedStatements ≠ [] →
      trimStr sql ≠ [] →
      trimStr sql ≠ str "-- This is an empty migration." →
      (handleMigrateRun sql h false).exitCode = 1 ∧
      (handleMigrateRun sql h false).wroteFile = false ∧
      ∀ e ∈ (transformMigration sql ⟨h, false⟩).unsupportedStatements,
        str "  " ++ e ∈ (handleMigrateRun sql h false).errorLines) := by
  constructor
  · intro sql h hne
    unfold handleTransformRun
    rw [if_pos ⟨hne, rfl⟩]
    refine ⟨rfl, rfl, rfl, ?_⟩
    intro e he
    exact List.mem_map_of_mem _ he
  · intro sql h hne ht hm
    unfold handleMigrateRun
    rw [if_neg (not_or.mpr ⟨ht, hm⟩), if_pos ⟨hne, rfl⟩]
    refine ⟨rfl, rfl, ?_⟩
    intro e he
    exact List.mem_map_of_mem _ he

/-- Witness for C8 at a concrete input: a compound `ALTER TABLE` whose
clauses are a paired constraint drop and re-add, which yields one
unsupported entry; the `transform` command aborts with status 1. -/
theorem C8_cli_abort_witness :
    (transformMigration (str "ALTER TABLE \"v\" DROP CONSTRAINT \"p\",\nADD CONSTRAINT \"p\" PRIMARY KEY (\"id\");") ⟨false, false⟩).unsupportedStatements ≠ [] ∧
    trimStr (str "ALTER TABLE \"v\" DROP CONSTRAINT \"p\",\nADD CONSTRAINT \"p\" PRIMARY KEY (\"id\");") ≠ [] ∧
    trimStr (str "ALTER TABLE \"v\" DROP CONSTRAINT \"p\",\nADD CONSTRAINT \"p\" PRIMARY KEY (\"id\");") ≠ str "-- This is an empty migration." ∧
    (handleTransformRun (str "ALTER TABLE \"v\" DROP CONSTRAINT \"p\",\nADD CONSTRAINT \"p\" PRIMARY KEY (\"id\");") false false).exitCode = 1 ∧
    (handleMigrateRun (str "ALTER TABLE \"v\" DROP CONSTRAINT \"p\",\nADD CONSTRAINT \"p\" PRIMARY KEY (\"id\");") false false).exitCode = 1 :=
  ⟨by decide, by decide, by decide,
   (C8_cli_abort.1 (str "ALTER TABLE \"v\" DROP CONSTRAINT \"p\",\nADD CONSTRAINT \"p\" PRIMARY KEY (\"id\");") false (by decide)).1,
   (C8_cli_abort.2 (str "ALTER TABLE \"v\" DROP CONSTRAINT \"p\",\nADD CONSTRAINT \"p\" PRIMARY KEY (\"id\");") false (by decide) (by decide) (by decide)).1⟩

/-- C2 counterexample: the claim "for every input statement that is a
foreign-key-adding `ALTER TABLE`, the transformed output sql contains
neither `FOREIGN KEY` nor `REFERENCES`" is false as stated: at this
concrete input the first statement is a foreign-key-adding `ALTER TABLE`
(and is removed), but a second, unrelated statement carries both
substrings inside a string literal and passes through, so the output does
contain `FOREIGN KEY` and `REFERENCES`. -/
theorem C2_counterexample :
    ((splitUnits (str "ALTER TABLE \"post\" ADD CONSTRAINT \"fk\" FOREIGN KEY (\"authorId\") REFERENCES \"user\"(\"id\");\nSELECT 'FOREIGN KEY REFERENCES';")).any isFkAddStmt) = true ∧
    (transformMigration (str "ALTER TABLE \"post\" ADD CONSTRAINT \"fk\" FOREIGN KEY (\"authorId\") REFERENCES \"user\"(\"id\");\nSELECT 'FOREIGN KEY REFERENCES';") ⟨false, false⟩).stats.foreignKeysRemoved = 1 ∧
    containsSub (str "FOREIGN KEY")
      (transformMigration (str "ALTER TABLE \"post\" ADD CONSTRAINT \"fk\" FOREIGN KEY (\"authorId\") REFERENCES \"user\"(\"id\");\nSELECT 'FOREIGN KEY REFERENCES';") ⟨false, false⟩).sql = true ∧
    containsSub (str "REFERENCES")
      (transformMigration (str "ALTER TABLE \"post\" ADD CONSTRAINT \"fk\" FOREIGN KEY (\"authorId\") REFERENCES \"user\"(\"id\");\nSELECT 'FOREIGN KEY REFERENCES';") ⟨false, false⟩).sql = true := by
  decide

/-- C2 (amended): every statement classified as a foreign-key-adding
`ALTER TABLE` is itself dropped from the output (it contributes no output
statement) and increments `foreignKeysRemoved` by exactly one, recording
no unsupported entry; across a whole run the warnings list is exactly one
entry — mentioning both `relationMode` and `application-layer` — when at
least one foreign-key removal occurred, and empty otherwise.  (The output
can still contain the substrings `FOREIGN KEY`/`REFERENCES` if some other
statement carries them, per the counterexample.) -/
theorem C2_fk_removal :
    (∀ (u : StatementUnit) (pre n t : Str),
      classify u.body = Kind.alterTable pre [Clause.addCFk n t] →
      applyRules u = ⟨none, 1, 0, []⟩) ∧
    (∀ (h : Bool) (us : List StatementUnit),
      (runUnits h us).warnings =
        if (runUnits h us).stats.foreignKeysRemoved > 0 then [fkWarning] else []) ∧
    containsSub (str "relationMode") fkWarning = true ∧
    containsSub (str "application-layer") fkWarning = true := by
  refine ⟨?_, ?_, by decide, by decide⟩
  · intro u pre n t hc
    simp [applyRules, hc]
  · intro h us
    rfl

/-- Witness for C2 at a concrete foreign-key-adding statement. -/
theorem C2_fk_removal_witness :
    classify (str "ALTER TABLE \"post\" ADD CONSTRAINT \"fk\" FOREIGN KEY (\"authorId\") REFERENCES \"user\"(\"id\")") =
      Kind.alterTable (str "ALTER TABLE \"post\"")
        [Clause.addCFk (str "\"fk\"")
          (str "ADD CONSTRAINT \"fk\" FOREIGN KEY (\"authorId\") REFERENCES \"user\"(\"id\")")] ∧
    applyRules ⟨[], str "ALTER TABLE \"post\" ADD CONSTRAINT \"fk\" FOREIGN KEY (\"authorId\") REFERENCES \"user\"(\"id\")", false⟩ =
      ⟨none, 1, 0, []⟩ :=
  ⟨by decide,
   C2_fk_removal.1
     ⟨[], str "ALTER TABLE \"post\" ADD CONSTRAINT \"fk\" FOREIGN KEY (\"authorId\") REFERENCES \"user\"(\"id\")", false⟩
     (str "ALTER TABLE \"post\"") (str "\"fk\"")
     (str "ADD CONSTRAINT \"fk\" FOREIGN KEY (\"authorId\") REFERENCES \"user\"(\"id\")")
     (by decide)⟩

/-- C5: every statement of the form `CREATE INDEX <tail>` not already
carrying the `ASYNC` keyword is rewritten to `CREATE INDEX ASYNC <tail>`
with `indexesConverted` incremented by exactly one (and likewise
`CREATE UNIQUE INDEX` becomes `CREATE UNIQUE INDEX ASYNC`); a statement
already carrying `ASYNC` is passed through unchanged with no increment and
is not double-annotated.  Concretely, `CREATE INDEX "n" ON "t"("c");`
yields `CREATE INDEX ASYNC` in the output with `indexesConverted = 1`, the
unique variant yields `CREATE UNIQUE INDEX ASYNC`, and an already-`ASYNC`
input leaves `indexesConverted` at 0 with no `ASYNC ASYNC` in the output. -/
theorem C5_index_async :
    (∀ (cm : List Str) (w : Bool) (tail : Str),
      (matchKw (str "ASYNC") (' ' :: tail)).isSome = false →
      applyRules ⟨cm, str "CREATE INDEX " ++ tail, w⟩ =
        ⟨some (cm, str "CREATE INDEX ASYNC " ++ tail), 0, 1, []⟩) ∧
    (∀ (cm : List Str) (w : Bool) (tail : Str),
      (matchKw (str "ASYNC") (' ' :: tail)).isSome = false →
      applyRules ⟨cm, str "CREATE UNIQUE INDEX " ++ tail, w⟩ =
        ⟨some (cm, str "CREATE UNIQUE INDEX ASYNC " ++ tail), 0, 1, []⟩) ∧
    (∀ (cm : List Str) (w : Bool) (tail : Str),
      applyRules ⟨cm, str "CREATE INDEX ASYNC " ++ tail, w⟩ =
        ⟨some (cm, str "CREATE INDEX ASYNC " ++ tail), 0, 0, []⟩) ∧
    (transformMigration (str "CREATE INDEX \"n\" ON \"t\"(\"c\");") ⟨false, false⟩).stats.indexesConverted = 1 ∧
    containsSub (str "CREATE INDEX ASYNC")
      (transformMigration (str "CREATE INDEX \"n\" ON \"t\"(\"c\");") ⟨false, false⟩).sql = true ∧
    (transformMigration (str "CREATE UNIQUE INDEX \"n\" ON \"t\"(\"c\");") ⟨false, false⟩).stats.indexesConverted = 1 ∧
    containsSub (str "CREATE UNIQUE INDEX ASYNC")
      (transformMigration (str "CREATE UNIQUE INDEX \"n\" ON \"t\"(\"c\");") ⟨false, false⟩).sql = true ∧
    (transformMigration (str "CREATE INDEX ASYNC \"n\" ON \"t\"(\"c\");") ⟨false, false⟩).stats.indexesConverted = 0 ∧
    containsSub (str "ASYNC ASYNC")
      (transformMigration (str "CREATE INDEX ASYNC \"n\" ON \"t\"(\"c\");") ⟨false, false⟩).sql = false := by
  refine ⟨?_, ?_, fun cm w tail => rfl, by decide, by decide, by decide, by decide, by decide,
    by decide⟩
  · intro cm w tail h
    have e : applyRules ⟨cm, str "CREATE INDEX " ++ tail, w⟩ =
        (if (matchKw (str "ASYNC") (' ' :: tail)).isSome = true then
          (⟨some (cm, str "CREATE INDEX " ++ tail), 0, 0, []⟩ : StepRes)
        else ⟨some (cm, str "CREATE INDEX ASYNC " ++ tail), 0, 1, []⟩) := rfl
    rw [e, h]
    simp
  · intro cm w tail h
    have e : applyRules ⟨cm, str "CREATE UNIQUE INDEX " ++ tail, w⟩ =
        (if (matchKw (str "ASYNC") (' ' :: tail)).isSome = true then
          (⟨some (cm, str "CREATE UNIQUE INDEX " ++ tail), 0, 0, []⟩ : StepRes)
        else ⟨some (cm, str "CREATE UNIQUE INDEX ASYNC " ++ tail), 0, 1, []⟩) := rfl
    rw [e, h]
    simp

/-- Witness for C5 at a concrete index statement tail. -/
theorem C5_index_async_witness :
    (matchKw (str "ASYNC") (' ' :: str "\"n\" ON \"t\"(\"c\")")).isSome = false ∧
    applyRules ⟨[], str "CREATE INDEX " ++ str "\"n\" ON \"t\"(\"c\")", false⟩ =
      ⟨some ([], str "CREATE INDEX ASYNC " ++ str "\"n\" ON \"t\"(\"c\")"), 0, 1, []⟩ :=
  ⟨by decide, C5_index_async.1 [] false (str "\"n\" ON \"t\"(\"c\")") (by decide)⟩

/-- C9: statements present in the transformed output appear in exactly the
order they were encountered in the input — the emitted statements are the
image of an order-preserving sublist (the filter of kept units) of the
statement-unit list — and a unit is dropped from the output precisely when
it falls to the foreign-key-removal rule (single-clause constraint-adding
foreign key, or single-clause constraint drop) or to the
empty-compound-clause rule. -/
theorem C9_order_preservation :
    (∀ (u : StatementUnit),
      (applyRules u).emitted = none ↔ (isFkRemovalStmt u || isEmptyCompoundStmt u) = true) ∧
    (∀ (us : List StatementUnit),
      (us.filter keptUnit).Sublist us ∧
      emittedOf us = (us.filter keptUnit).map (fun u => ((applyRules u).emitted).getD ([], []))) ∧
    (∀ (h : Bool) (us : List StatementUnit), (runUnits h us).sql = compose h (emittedOf us)) ∧
    (∀ (input : Str) (o : TransformOptions),
      transformMigration input o = runUnits o.includeHeader (splitUnits input)) := by
  refine ⟨?_, ?_, fun h us => rfl, fun input o => rfl⟩
  · intro u
    unfold applyRules isFkRemovalStmt isEmptyCompoundStmt
    rcases hc : classify u.body with _ | ⟨uq, a, con, rest⟩ | ⟨pre, cs⟩ | _ | _
    · simp
    · cases a <;> simp
    · rcases cs with _ | ⟨c, cs'⟩
      · simp
      · rcases cs' with _ | ⟨c', cs''⟩
        · rcases c <;> simp
        · by_cases hk :
            (c :: c' :: cs'').filter (keepClause (dropNames (c :: c' :: cs''))) = [] <;>
            simp [hk, List.isEmpty_iff]
    · simp
    · simp
  · intro us
    refine ⟨List.filter_sublist _, ?_⟩
    induction us with
    | nil => rfl
    | cons a t ih =>
      rcases ho : (applyRules a).emitted with _ | e
      · simp [emittedOf, keptUnit, List.filterMap_cons, List.filter_cons, ho] at *
        exact ih
      · simp [emittedOf, keptUnit, List.filterMap_cons, List.filter_cons, ho] at *
        exact ih

lemma scanList_append (l₁ l₂ : Str) (s : SplitCore) :
    scanList s (l₁ ++ l₂) =
      ((scanList (scanList s l₁).1 l₂).1,
       (scanList s l₁).2 ++ (scanList (scanList s l₁).1 l₂).2) := by
  induction l₁ generalizing s with
  | nil => simp [scanList]
  | cons c cs ih => simp [scanList, ih, List.append_assoc]

lemma scan_begin : scanList initCore (str "BEGIN;\n") = (initCore, [⟨[], str "BEGIN"⟩]) := by
  decide

lemma scan_two_nl : scanList initCore (str "\n\n") = (initCore, []) := by decide

lemma scan_nl : scanList initCore ['\n'] = (initCore, []) := by decide

lemma scan_header : scanList initCore headerText = (initCore, []) := by decide

lemma scan_close (b : Str) (h2 : b ≠ []) (h3 : trimStr b = b) :
    scanList ⟨QMode.normal, 0, b, [], none, false, false⟩ (str ";\nCOMMIT;") =
      (initCore, [⟨[], b⟩, ⟨[], str "COMMIT"⟩]) := by
  have hb : ¬ trimStr b = [] := by rw [h3]; exact h2
  have h1 : step ⟨QMode.normal, 0, b, [], none, false, false⟩ ';' =
      (if trimStr b = [] then (initCore, ([] : List RawStmt))
       else (initCore, [⟨[], trimStr b⟩])) := rfl
  have h1' : step ⟨QMode.normal, 0, b, [], none, false, false⟩ ';' =
      (initCore, [⟨[], b⟩]) := by
    rw [h1, if_neg hb, h3]
  have hsplit : str ";\nCOMMIT;" = [';'] ++ str "\nCOMMIT;" := rfl
  rw [hsplit, scanList_append]
  have hone : scanList ⟨QMode.normal, 0, b, [], none, false, false⟩ [';'] =
      (initCore, [⟨[], b⟩]) := by
    simp [scanList, h1']
  rw [hone]
  have htail : scanList initCore (str "\nCOMMIT;") = (initCore, [⟨[], str "COMMIT"⟩]) := by
    decide
  rw [htail]
  simp

lemma scan_comment_chars (rest : Str) :
    ∀ (acc : Str) (P : List Str), '\n' ∉ rest →
      scanList ⟨QMode.normal, 0, [], P, some acc, false, false⟩ rest =
        (⟨QMode.normal, 0, [], P, some (acc ++ rest), false, false⟩, []) := by
  induction rest with
  | nil =>
    intro acc P h
    simp [scanList]
  | cons c cs ih =>
    intro acc P h
    have hc : ¬ c = '\n' := by
      intro he
      subst he
      exact h (List.mem_cons_self _ _)
    have hcs : '\n' ∉ cs := fun hm => h (List.mem_cons_of_mem c hm)
    have hstep : step ⟨QMode.normal, 0, [], P, some acc, false, false⟩ c =
        (if c = '\n' then (⟨QMode.normal, 0, [], P ++ [acc], none, false, false⟩, [])
         else (⟨QMode.normal, 0, [], P, some (acc ++ [c]), false, false⟩, [])) := rfl
    rw [show scanList ⟨QMode.normal, 0, [], P, some acc, false, false⟩ (c :: cs) =
      ((scanList (step ⟨QMode.normal, 0, [], P, some acc, false, false⟩ c).1 cs).1,
       (step ⟨QMode.normal, 0, [], P, some acc, false, false⟩ c).2 ++
       (scanList (step ⟨QMode.normal, 0, [], P, some acc, false, false⟩ c).1 cs).2) from rfl]
    rw [hstep, if_neg hc]
    rw [ih (acc ++ [c]) P hcs]
    simp

lemma scan_comment (rest : Str) (P : List Str) (h : '\n' ∉ rest) :
    scanList ⟨QMode.normal, 0, [], P, none, false, false⟩ (('-' :: '-' :: rest) ++ ['\n']) =
      (⟨QMode.normal, 0, [], P ++ ['-' :: '-' :: rest], none, false, false⟩, []) := by
  have h2 : scanList ⟨QMode.normal, 0, [], P, none, false, false⟩ ['-', '-'] =
      (⟨QMode.normal, 0, [], P, some ['-', '-'], false, false⟩, []) := rfl
  rw [show ('-' :: '-' :: rest) ++ ['\n'] = ['-', '-'] ++ (rest ++ ['\n']) from by simp]
  rw [scanList_append, h2]
  rw [scanList_append, scan_comment_chars rest ['-', '-'] P h]
  have h3 : scanList ⟨QMode.normal, 0, [], P, some (['-', '-'] ++ rest), false, false⟩ ['\n'] =
      (⟨QMode.normal, 0, [], P ++ [['-', '-'] ++ rest], none, false, false⟩, []) := rfl
  rw [h3]
  simp

lemma scan_comments (L : List Str) :
    ∀ (P : List Str), (∀ l ∈ L, commentLineOK l = true) →
      scanList ⟨QMode.normal, 0, [], P, none, false, false⟩
        (L.foldr (fun l acc => l ++ ['\n'] ++ acc) []) =
      (⟨QMode.normal, 0, [], P ++ L, none, false, false⟩, []) := by
  induction L with
  | nil =>
    intro P h
    simp [scanList]
  | cons l L' ih =>
    intro P h
    obtain ⟨htake, hmem⟩ := of_decide_eq_true (h l (List.mem_cons_self l L'))
    obtain ⟨rest, hrest, hrmem⟩ : ∃ rest, l = '-' :: '-' :: rest ∧ '\n' ∉ rest := by
      refine ⟨l.drop 2, ?_, ?_⟩
      · conv_lhs => rw [← List.take_append_drop 2 l]
        rw [htake]
        rfl
      · intro hm
        exact hmem ((List.drop_suffix 2 l).subset hm)
    subst hrest
    rw [show (('-' :: '-' :: rest) :: L').foldr (fun l acc => l ++ ['\n'] ++ acc) [] =
      (('-' :: '-' :: rest) ++ ['\n']) ++ L'.foldr (fun l acc => l ++ ['\n'] ++ acc) [] from rfl]
    rw [scanList_append, scan_comment rest P hrmem]
    rw [ih (P ++ ['-' :: '-' :: rest]) (fun x hx => h x (List.mem_cons_of_mem _ hx))]
    simp

lemma scanList_cons (s : SplitCore) (c : Char) (cs : Str) :
    scanList s (c :: cs) =
      ((scanList (step s c).1 cs).1, (step s c).2 ++ (scanList (step s c).1 cs).2) := rfl

lemma scan_begin_pending (P : List Str) :
    scanList ⟨QMode.normal, 0, [], P, none, false, false⟩ (str "BEGIN;\n") =
      (initCore, [⟨P, str "BEGIN"⟩]) := by
  have t2 : scanList ⟨QMode.normal, 0, [], [], none, false, false⟩ (str "\n") =
      (⟨QMode.normal, 0, [], [], none, false, false⟩, []) := rfl
  have t3 : scanList ⟨QMode.normal, 0, ['B', 'E', 'G', 'I', 'N'], P, none, false, false⟩
      (str ";\n") = (⟨QMode.normal, 0, [], [], none, false, false⟩, [⟨P, str "BEGIN"⟩]) := by
    rw [show str ";\n" = ';' :: str "\n" from rfl]
    rw [scanList_cons]
    rw [show step ⟨QMode.normal, 0, ['B', 'E', 'G', 'I', 'N'], P, none, false, false⟩ ';' =
      ((⟨QMode.normal, 0, [], [], none, false, false⟩ : SplitCore), [⟨P, str "BEGIN"⟩])
      from rfl]
    dsimp only
    rw [t2]
    simp
  have b1 : scanList ⟨QMode.normal, 0, [], P, none, false, false⟩ ['B'] =
      (⟨QMode.normal, 0, ['B'], P, none, false, false⟩, []) := rfl
  have b2 : scanList ⟨QMode.normal, 0, ['B'], P, none, false, false⟩ ['E'] =
      (⟨QMode.normal, 0, ['B', 'E'], P, none, false, false⟩, []) := rfl
  have b3 : scanList ⟨QMode.normal, 0, ['B', 'E'], P, none, false, false⟩ ['G'] =
      (⟨QMode.normal, 0, ['B', 'E', 'G'], P, none, false, false⟩, []) := rfl
  have b4 : scanList ⟨QMode.normal, 0, ['B', 'E', 'G'], P, none, false, false⟩ ['I'] =
      (⟨QMode.normal, 0, ['B', 'E', 'G', 'I'], P, none, false, false⟩, []) := rfl
  have b5 : scanList ⟨QMode.normal, 0, ['B', 'E', 'G', 'I'], P, none, false, false⟩ ['N'] =
      (⟨QMode.normal, 0, ['B', 'E', 'G', 'I', 'N'], P, none, false, false⟩, []) := rfl
  rw [show str "BEGIN;\n" =
    ['B'] ++ (['E'] ++ (['G'] ++ (['I'] ++ (['N'] ++ str ";\n")))) from rfl]
  rw [scanList_append, b1]
  dsimp only
  rw [scanList_append, b2]
  dsimp only
  rw [scanList_append, b3]
  dsimp only
  rw [scanList_append, b4]
  dsimp only
  rw [scanList_append, b5]
  dsimp only
  rw [t3]
  simp [initCore]

lemma scan_block (e : List Str × Str) (tail : Str)
    (h1 : e.1.all commentLineOK = true) (h2 : e.2 ≠ []) (h3 : trimStr e.2 = e.2)
    (h4 : scanList initCore e.2 = (⟨QMode.normal, 0, e.2, [], none, false, false⟩, [])) :
    scanList initCore (wrapOne e ++ tail) =
      ((scanList initCore tail).1, blockOf e ++ (scanList initCore tail).2) := by
  have hw : wrapOne e ++ tail =
      (e.1.foldr (fun l acc => l ++ ['\n'] ++ acc) []) ++
      (str "BEGIN;\n" ++ (e.2 ++ (str ";\nCOMMIT;" ++ tail))) := by
    rw [wrapOne]
    simp [List.append_assoc]
  have hcomm : scanList initCore (e.1.foldr (fun l acc => l ++ ['\n'] ++ acc) []) =
      (⟨QMode.normal, 0, [], e.1, none, false, false⟩, []) := by
    have hall := scan_comments e.1 [] (fun l hl => List.all_eq_true.1 h1 l hl)
    simpa [initCore] using hall
  rw [hw, scanList_append, hcomm]
  rw [scanList_append, scan_begin_pending e.1]
  rw [scanList_append, h4]
  rw [scanList_append, scan_close e.2 h2 h3]
  simp [blockOf]

lemma scan_compose_body (es : List (List Str × Str))
    (hp : ∀ e ∈ es, e.1.all commentLineOK = true ∧ e.2 ≠ [] ∧ trimStr e.2 = e.2 ∧
      scanList initCore e.2 = (⟨QMode.normal, 0, e.2, [], none, false, false⟩, []))
    (hne : es ≠ []) :
    scanList initCore (joinSep (str "\n\n") (es.map wrapOne) ++ ['\n']) =
      (initCore, (es.map blockOf).flatten) := by
  induction es with
  | nil => exact absurd rfl hne
  | cons e t ih =>
    rcases t with _ | ⟨e', t'⟩
    · have he := hp e (by simp)
      rw [List.map_cons, List.map_nil]
      rw [show joinSep (str "\n\n") [wrapOne e] = wrapOne e from rfl]
      rw [scan_block e ['\n'] he.1 he.2.1 he.2.2.1 he.2.2.2, scan_nl]
      simp
    · have he := hp e (by simp)
      have hj : joinSep (str "\n\n") ((e :: e' :: t').map wrapOne) ++ ['\n'] =
          wrapOne e ++ (str "\n\n" ++ (joinSep (str "\n\n") ((e' :: t').map wrapOne) ++ ['\n'])) := by
        rw [List.map_cons]
        rw [show joinSep (str "\n\n") (wrapOne e :: (e' :: t').map wrapOne) =
          wrapOne e ++ str "\n\n" ++ joinSep (str "\n\n") ((e' :: t').map wrapOne) from rfl]
        simp [List.append_assoc]
      rw [hj, scan_block e _ he.1 he.2.1 he.2.2.1 he.2.2.2]
      rw [scanList_append, scan_two_nl]
      rw [ih (fun x hx => hp x (by simp [hx])) (by simp)]
      simp

lemma splitRaw_compose (hdr : Bool) (es : List (List Str × Str))
    (hp : ∀ e ∈ es, e.1.all commentLineOK = true ∧ e.2 ≠ [] ∧ trimStr e.2 = e.2 ∧
      scanList initCore e.2 = (⟨QMode.normal, 0, e.2, [], none, false, false⟩, []))
    (hne : es ≠ []) :
    splitRaw (compose hdr es) = (es.map blockOf).flatten := by
  unfold splitRaw compose
  rw [if_neg hne]
  cases hdr
  · rw [show ((if false then headerText else []) ++
        joinSep (str "\n\n") (es.map wrapOne) ++ ['\n']) =
      joinSep (str "\n\n") (es.map wrapOne) ++ ['\n'] from by simp]
    rw [scan_compose_body es hp hne]
    rfl
  · rw [show ((if true then headerText else []) ++
        joinSep (str "\n\n") (es.map wrapOne) ++ ['\n']) =
      headerText ++ (joinSep (str "\n\n") (es.map wrapOne) ++ ['\n']) from by
        simp [List.append_assoc]]
    rw [scanList_append, scan_header, scan_compose_body es hp hne]
    rfl

lemma markWrapped_blocks (es : List (List Str × Str))
    (hp : ∀ e ∈ es, upperStr e.2 ≠ str "BEGIN" ∧ upperStr e.2 ≠ str "COMMIT") :
    markWrappedGo false ((es.map blockOf).flatten) =
      es.map (fun e => ⟨[], e.2, true⟩) := by
  induction es with
  | nil => rfl
  | cons e t ih =>
    have he := hp e (by simp)
    rw [List.map_cons, List.flatten_cons]
    rw [show blockOf e ++ ((t.map blockOf).flatten) =
      ⟨e.1, str "BEGIN"⟩ :: ⟨[], e.2⟩ :: ⟨[], str "COMMIT"⟩ :: (t.map blockOf).flatten from rfl]
    rw [show markWrappedGo false (⟨e.1, str "BEGIN"⟩ :: ⟨[], e.2⟩ :: ⟨[], str "COMMIT"⟩ ::
        (t.map blockOf).flatten) =
      if isBeginStmt ⟨e.1, str "BEGIN"⟩ ∧
          (⟨[], e.2⟩ :: ⟨[], str "COMMIT"⟩ :: (t.map blockOf).flatten).any isCommitStmt then
        markWrappedGo true (⟨[], e.2⟩ :: ⟨[], str "COMMIT"⟩ :: (t.map blockOf).flatten)
      else ⟨e.1, str "BEGIN", false⟩ :: markWrappedGo false (⟨[], e.2⟩ :: ⟨[], str "COMMIT"⟩ ::
        (t.map blockOf).flatten) from rfl]
    have hany : (⟨[], e.2⟩ :: ⟨[], str "COMMIT"⟩ :: (t.map blockOf).flatten :
        List RawStmt).any isCommitStmt = true := by
      rw [List.any_cons, List.any_cons]
      rw [show isCommitStmt ⟨[], str "COMMIT"⟩ = true from by decide]
      simp
    rw [if_pos ⟨rfl, hany⟩]
    rw [show markWrappedGo true (⟨[], e.2⟩ :: ⟨[], str "COMMIT"⟩ :: (t.map blockOf).flatten) =
      if isCommitStmt ⟨[], e.2⟩ then
        markWrappedGo false (⟨[], str "COMMIT"⟩ :: (t.map blockOf).flatten)
      else ⟨[], e.2, true⟩ :: markWrappedGo true (⟨[], str "COMMIT"⟩ :: (t.map blockOf).flatten)
      from rfl]
    rw [if_neg (by simpa [isCommitStmt] using he.2)]
    rw [show markWrappedGo true (⟨[], str "COMMIT"⟩ :: (t.map blockOf).flatten) =
      if isCommitStmt ⟨[], str "COMMIT"⟩ then markWrappedGo false ((t.map blockOf).flatten)
      else ⟨[], str "COMMIT", true⟩ :: markWrappedGo true ((t.map blockOf).flatten) from rfl]
    rw [if_pos (by decide)]
    rw [ih (fun x hx => hp x (by simp [hx]))]
    rfl

lemma filterMap_emitted_stable (es : List (List Str × Str)) (hp : ∀ e ∈ es, e.1 = []) :
    (es.map (fun e => (⟨some ([], e.2), 0, 0, []⟩ : StepRes))).filterMap
      (fun r => r.emitted) = es := by
  induction es with
  | nil => rfl
  | cons e t ih =>
    rcases e with ⟨e1, e2⟩
    have h1 : e1 = [] := hp ⟨e1, e2⟩ (by simp)
    subst h1
    simp only [List.map_cons, List.filterMap_cons]
    rw [ih (fun x hx => hp x (by simp [hx]))]

lemma flatten_nil_map (l : List (List Str × Str)) :
    ((l.map (fun _ => ([] : List Str))).flatten) = [] := by
  induction l with
  | nil => rfl
  | cons a t ih => simp [ih]

lemma runUnits_stable (es : List (List Str × Str))
    (hp : ∀ e ∈ es, e.1 = [] ∧ applyRules ⟨[], e.2, true⟩ = ⟨some ([], e.2), 0, 0, []⟩) :
    runUnits false (es.map (fun e => ⟨[], e.2, true⟩)) =
      ⟨compose false es, ⟨es.length, 0, 0⟩, [], []⟩ := by
  unfold runUnits
  have hsteps : (es.map (fun e => (⟨[], e.2, true⟩ : StatementUnit))).map applyRules =
      es.map (fun e => (⟨some ([], e.2), 0, 0, []⟩ : StepRes)) := by
    rw [List.map_map]
    exact List.map_congr_left (fun e he => (hp e he).2)
  rw [hsteps]
  have hemit : (es.map (fun e => (⟨some ([], e.2), 0, 0, []⟩ : StepRes))).filterMap
      (fun r => r.emitted) = es := filterMap_emitted_stable es (fun e he => (hp e he).1)
  rw [hemit]
  have hfk : ((es.map (fun e => (⟨some ([], e.2), 0, 0, []⟩ : StepRes))).map
      (fun r => r.fkDelta)).sum = 0 := by
    rw [List.map_map]
    exact List.sum_eq_zero (by
      intro x hx
      obtain ⟨e, he, hxe⟩ := List.mem_map.1 hx
      exact hxe.symm)
  have hidx : ((es.map (fun e => (⟨some ([], e.2), 0, 0, []⟩ : StepRes))).map
      (fun r => r.idxDelta)).sum = 0 := by
    rw [List.map_map]
    exact List.sum_eq_zero (by
      intro x hx
      obtain ⟨e, he, hxe⟩ := List.mem_map.1 hx
      exact hxe.symm)
  have hun : ((es.map (fun e => (⟨some ([], e.2), 0, 0, []⟩ : StepRes))).map
      (fun r => r.unsupported)).flatten = [] := by
    rw [List.map_map]
    exact flatten_nil_map es
  rw [hfk, hidx, hun]
  simp

/-- C3 counterexample: the claim "no output ever contains the substring
`ASYNC ASYNC`" is false as stated: a statement carrying `ASYNC ASYNC`
inside a string literal passes through unchanged, so both the transformed
output and its re-transformation contain the substring. -/
theorem C3_counterexample :
    containsSub (str "ASYNC ASYNC")
      (transformMigration (str "SELECT 'ASYNC ASYNC';") ⟨false, false⟩).sql = true ∧
    containsSub (str "ASYNC ASYNC")
      (transformMigration
        ((transformMigration (str "SELECT 'ASYNC ASYNC';") ⟨false, false⟩).sql)
        ⟨false, false⟩).sql = true := by
  decide

/-- C3 (amended): for every input whose statement units are splitter-stable
(`stableUnit`: the leading comment block consists of well-formed `-- ...`
lines, and the emitted body — if any — is trimmed, scans back cleanly as
one statement, is not a bare transaction marker, and re-applies through
the rule engine unchanged; all ordinary Prisma-generated statements,
comment-bearing or not, qualify), re-running `transform` on its own output
with `includeHeader = false` returns the first run's headerless output
with the leading comment blocks stripped — during re-splitting they
re-attach to the `BEGIN` markers and are dropped with them — and with
`indexesConverted = 0`, `foreignKeysRemoved = 0`, the same
`statementsProcessed`, no warnings and no unsupported entries: so
re-transformation never increases `indexesConverted` and never wraps a
statement a second time.  Moreover an index statement already carrying
`ASYNC` is always passed through unchanged (never double-annotated), and a
statement already enclosed in `BEGIN;`/`COMMIT;` yields exactly one
`BEGIN;` in the output.  (The output can still contain `ASYNC ASYNC` when
a statement itself carries the substring, per the counterexample.) -/
theorem C3_idempotence :
    (∀ (input : Str) (hdr f f' : Bool),
      (∀ u ∈ splitUnits input, stableUnit u = true) →
      transformMigration ((transformMigration input ⟨hdr, f⟩).sql) ⟨false, f'⟩ =
        ⟨compose false ((emittedOf (splitUnits input)).map
            (fun e => (([], e.2) : List Str × Str))),
         ⟨(transformMigration input ⟨false, f⟩).stats.statementsProcessed, 0, 0⟩, [], []⟩) ∧
    (∀ (u : StatementUnit) (uq : Bool) (c r : Str),
      classify u.body = Kind.createIndex uq true c r →
      applyRules u = ⟨some (u.comments, u.body), 0, 0, []⟩) ∧
    countSub (str "BEGIN;")
      (transformMigration (str "BEGIN;\nCREATE TABLE \"user\" (\"id\" UUID);\nCOMMIT;")
        ⟨false, false⟩).sql = 1 := by
  refine ⟨?_, ?_, by decide⟩
  · intro input hdr f f' hstable
    have hes : ∀ e ∈ emittedOf (splitUnits input),
        e.1.all commentLineOK = true ∧ e.2 ≠ [] ∧ trimStr e.2 = e.2 ∧
        scanList initCore e.2 = (⟨QMode.normal, 0, e.2, [], none, false, false⟩, []) ∧
        upperStr e.2 ≠ str "BEGIN" ∧ upperStr e.2 ≠ str "COMMIT" ∧
        applyRules ⟨[], e.2, true⟩ = ⟨some ([], e.2), 0, 0, []⟩ := by
      intro e he
      obtain ⟨r, hr, hre⟩ := List.mem_filterMap.1 he
      obtain ⟨u, hu, rfl⟩ := List.mem_map.1 hr
      have hs := hstable u hu
      unfold stableUnit at hs
      rw [hre] at hs
      exact of_decide_eq_true hs
    have hsql1 : (transformMigration input ⟨hdr, f⟩).sql =
        compose hdr (emittedOf (splitUnits input)) := rfl
    by_cases hemp : emittedOf (splitUnits input) = []
    · rw [hsql1, hemp]
      rw [show compose hdr ([] : List (List Str × Str)) = [] from by simp [compose]]
      rw [show transformMigration [] ⟨false, f'⟩ = ⟨[], ⟨0, 0, 0⟩, [], []⟩ from rfl]
      have hproc : (transformMigration input ⟨false, f⟩).stats.statementsProcessed = 0 := by
        rw [show (transformMigration input ⟨false, f⟩).stats.statementsProcessed =
          (emittedOf (splitUnits input)).length from rfl, hemp]
        rfl
      rw [hproc]
      rfl
    · have hsplit2 : splitUnits ((transformMigration input ⟨hdr, f⟩).sql) =
          (emittedOf (splitUnits input)).map (fun e => ⟨[], e.2, true⟩) := by
        rw [hsql1]
        rw [show splitUnits (compose hdr (emittedOf (splitUnits input))) =
          markWrapped (splitRaw (compose hdr (emittedOf (splitUnits input)))) from rfl]
        rw [splitRaw_compose hdr _
          (fun e he => ⟨(hes e he).1, (hes e he).2.1, (hes e he).2.2.1, (hes e he).2.2.2.1⟩)
          hemp]
        exact markWrapped_blocks _
          (fun e he => ⟨(hes e he).2.2.2.2.1, (hes e he).2.2.2.2.2.1⟩)
      rw [show transformMigration ((transformMigration input ⟨hdr, f⟩).sql) ⟨false, f'⟩ =
          runUnits false (splitUnits ((transformMigration input ⟨hdr, f⟩).sql)) from rfl]
      rw [hsplit2]
      have hmm2 : (emittedOf (splitUnits input)).map
          (fun e => (⟨[], e.2, true⟩ : StatementUnit)) =
          ((emittedOf (splitUnits input)).map (fun e => (([], e.2) : List Str × Str))).map
            (fun e => (⟨[], e.2, true⟩ : StatementUnit)) := by
        rw [List.map_map]
        rfl
      rw [hmm2]
      rw [runUnits_stable _ (by
        intro e' he'
        obtain ⟨e, he, hee⟩ := List.mem_map.1 he'
        subst hee
        exact ⟨rfl, (hes e he).2.2.2.2.2.2⟩)]
      rw [List.length_map]
      rfl
  · intro u uq c r hc
    simp [applyRules, hc]

/-- Witness for C3 at a concrete comment-bearing two-statement input of the
ordinary Prisma shape — a `-- CreateTable` comment with a create-table
statement and a `-- CreateIndex` comment with an index that gets converted
to `ASYNC`: all units are splitter-stable, and re-transformation returns
the comment-stripped headerless output with all counters zero except the
unchanged statement count. -/
theorem C3_idempotence_witness :
    (splitUnits (str "-- CreateTable\nCREATE TABLE \"t\" (\"id\" UUID);\n\n-- CreateIndex\nCREATE INDEX \"i\" ON \"t\"(\"c\");")).all stableUnit = true ∧
    transformMigration
        ((transformMigration (str "-- CreateTable\nCREATE TABLE \"t\" (\"id\" UUID);\n\n-- CreateIndex\nCREATE INDEX \"i\" ON \"t\"(\"c\");") ⟨false, false⟩).sql)
        ⟨false, false⟩ =
      ⟨compose false ((emittedOf (splitUnits (str "-- CreateTable\nCREATE TABLE \"t\" (\"id\" UUID);\n\n-- CreateIndex\nCREATE INDEX \"i\" ON \"t\"(\"c\");"))).map
          (fun e => (([], e.2) : List Str × Str))),
       ⟨(transformMigration (str "-- CreateTable\nCREATE TABLE \"t\" (\"id\" UUID);\n\n-- CreateIndex\nCREATE INDEX \"i\" ON \"t\"(\"c\");") ⟨false, false⟩).stats.statementsProcessed,
        0, 0⟩, [], []⟩ :=
  ⟨by decide,
   C3_idempotence.1
     (str "-- CreateTable\nCREATE TABLE \"t\" (\"id\" UUID);\n\n-- CreateIndex\nCREATE INDEX \"i\" ON \"t\"(\"c\");")
     false false false (by decide)⟩
